import Mathlib

/-!
Verification of the Brother PT label service's composition engine
(`src/BrotherPTPrintService/brother_docker_api.py`, with
`brother_fastapi.py` sharing the same layout logic).

The Python code is shallowly embedded:

* PIL 1-bit images become `Image`: a width, a height, and a total pixel
  function `Nat → Nat → Bool` (`false` = pixel value 0, `true` = 1).
* External capabilities (PIL font metrics and glyph rasterisation, the
  printer, the filesystem, the clock) become explicit parameters
  (`Measurer`, `Env`, `DrawCap`), as the spec itself treats them.
* Python `//` on ints is `Int.fdiv`; Python `int(a / b)` on positive
  ints is `Nat` division (for the small magnitudes involved the float
  quotient of two ints never rounds across an integer, so truncation
  agrees with exact floor division). The one float PRODUCT,
  `len(text) * (font_size * 0.6)`, is modelled bit-exactly: `rnd53`
  performs IEEE-754 round-to-nearest-even at 53 significant bits, so
  `pyEstWidthInt` reproduces the double computation (e.g. it yields 161
  at 30 characters and size 9, where the exact rational would give 162).
* Python truthiness of optional strings / ints (`x or default`,
  `if field and cond:`) is modelled by `strTruthy`, `pyOrOpt`,
  `pyOrStr`, `pyOrInt`.
* Exceptions become `Except String`.
-/

namespace BrotherPT

/-- A PIL mode-'1' image: fixed dimensions plus a total pixel map
(`false` = 0, `true` = 1). Reads outside the dimensions are never used. -/
structure Image where
  width : Nat
  height : Nat
  pix : Nat → Nat → Bool

/-- `Image.new('1', (w, h), bg)`. -/
def imageNew (w h : Nat) (bg : Bool) : Image :=
  ⟨w, h, fun _ _ => bg⟩

/-- Font handles the code loads: DejaVuSans-Bold / DejaVuSans at a point
size via `ImageFont.truetype`, or `ImageFont.load_default()`. -/
inductive Font where
  | dejaVuBold (size : Nat)
  | dejaVuSans (size : Nat)
  | defaultFont
deriving DecidableEq, Repr

/-- The `_get_fonts` dictionary: roles bold/normal/small. -/
structure FontSet where
  bold : Font
  normal : Font
  small : Font

/-- Process-wide printer state fixed at startup (`BrotherDockerAPI.__init__`):
`print_height` is the spec's `printHeightPx`; `fontsAvailable` records
whether the DejaVu font files load (the `try/except` around
`ImageFont.truetype`). -/
structure Service where
  print_height : Nat
  is_ready : Bool
  fontsAvailable : Bool

/-- `_get_fonts`: truetype handles at sizes 10/8/6, or the default font
for every role when loading fails. -/
def get_fonts (S : Service) : FontSet :=
  if S.fontsAvailable then
    ⟨.dejaVuBold 10, .dejaVuSans 8, .dejaVuSans 6⟩
  else
    ⟨.defaultFont, .defaultFont, .defaultFont⟩

/-- External PIL text capability: `bbox f s = (x1-x0, y1-y0)` of
`draw.textbbox((0,0), s, font=f)`, and `mask` is the glyph coverage used
by `draw.text` (both supplied by the font engine, outside the repo). -/
structure Measurer where
  bbox : Font → String → Nat × Nat
  mask : Font → String → Nat → Nat → Bool

/-- A `draw.text` call as observed on the canvas: position, the exact
string drawn, and the font used. -/
structure DrawOp where
  x : Int
  y : Int
  s : String
  font : Font
deriving DecidableEq, Repr

/-- `draw.text((x, y), s, fill, font)`: writes `fill` wherever the glyph
mask covers, leaving dimensions unchanged (PIL draws in place). -/
def drawText (M : Measurer) (img : Image) (x y : Int) (s : String)
    (f : Font) (fill : Bool) : Image :=
  { img with pix := fun px py =>
      if x ≤ (px : Int) ∧ y ≤ (py : Int) ∧
          M.mask f s ((px : Int) - x).toNat ((py : Int) - y).toNat then fill
      else img.pix px py }

/-- Python truthiness of an optional string: `None` and `""` are falsy. -/
def strTruthy : Option String → Bool
  | none => false
  | some s => !s.isEmpty

/-- Python `a or b` on two optional strings (`request.model or
request.rack_unit`). -/
def pyOrOpt (a b : Option String) : Option String :=
  if strTruthy a then a else b

/-- Python `s or d` for an optional string with a non-empty default. -/
def pyOrStr (o : Option String) (d : String) : String :=
  match o with
  | none => d
  | some s => if s = "" then d else s

/-- Python `n or d` for an optional int (`0` is falsy). -/
def pyOrInt (o : Option Int) (d : Int) : Int :=
  match o with
  | none => d
  | some v => if v = 0 then d else v

/-- `x = (label_width - text_width) // 2` (Python floor division, the
difference may be negative). -/
def centerX (label_width text_width : Nat) : Int :=
  Int.fdiv ((label_width : Int) - (text_width : Int)) 2

/-- The vertical-cursor state threaded through a structured label render:
the canvas so far, the cursor `y`, and the `draw.text` calls made. -/
structure LineState where
  img : Image
  y : Nat
  ops : List DrawOp

/-- Measure a string, horizontally centre it, draw it at the cursor and
advance the cursor by `glyphHeight + advGap` (the repeated
`textbbox` / centre / `draw.text` / `y +=` block). -/
def drawCenteredLine (M : Measurer) (label_width : Nat) (font : Font)
    (st : LineState) (s : String) (advGap : Nat) : LineState :=
  let m := M.bbox font s
  let x := centerX label_width m.1
  { img := drawText M st.img x (st.y : Int) s font true
    y := st.y + m.2 + advGap
    ops := st.ops ++ [⟨x, (st.y : Int), s, font⟩] }

/-- An optional field's block: `if request.field and y + minH <
self.print_height:` guarding a centred line of `transform field`. -/
def optLine (S : Service) (M : Measurer) (label_width : Nat) (font : Font)
    (minH advGap : Nat) (transform : String → String)
    (content : Option String) (st : LineState) : LineState :=
  match content with
  | none => st
  | some s =>
    if s = "" then st
    else if st.y + minH < S.print_height then
      drawCenteredLine M label_width font st (transform s) advGap
    else st

/-! ## Cable labels (`create_cable_label`, lines 147-190; the identical
logic is at `brother_fastapi.py` lines 73-122) -/

/-- `label_width = max(180, min(len(request.cable_type) * 12, 350))`. -/
def cableLabelWidth (cable_type : String) : Nat :=
  max 180 (min (cable_type.length * 12) 350)

/-- The color-code block: measure, truncate to `(label_width - 20) // 5`
characters plus `"..."` when wider than `label_width - 8`, re-measure,
centre and draw (no cursor advance afterwards). -/
def cableColorLine (S : Service) (M : Measurer) (label_width : Nat)
    (font : Font) (st : LineState) (content : Option String) : LineState :=
  match content with
  | none => st
  | some s =>
    if s = "" then st
    else if st.y + 6 < S.print_height then
      let m := M.bbox font s
      let s1 :=
        if label_width - 8 < m.1 then
          if (label_width - 20) / 5 < s.length then
            s.take ((label_width - 20) / 5) ++ "..."
          else s
        else s
      drawCenteredLine M label_width font st s1 0
    else st

/-- `create_cable_label`: dynamic-width canvas of height `print_height`,
then cable type (bold), voltage (normal), destination (small), color
code (small, truncated). -/
def create_cable_label (S : Service) (M : Measurer)
    (cable_type : String) (voltage destination color_code : Option String) :
    Image × List DrawOp :=
  let lw := cableLabelWidth cable_type
  let fonts := get_fonts S
  let st0 : LineState := ⟨imageNew lw S.print_height false, 3, []⟩
  let st1 := drawCenteredLine M lw fonts.bold st0 cable_type 2
  let st2 := optLine S M lw fonts.normal 10 1 (fun v => "⚡ " ++ v) voltage st1
  let st3 := optLine S M lw fonts.small 8 1 (fun v => "→ " ++ v) destination st2
  let st4 := cableColorLine S M lw fonts.small st3 color_code
  (st4.img, st4.ops)

/-! ## Device labels (`create_device_label`, lines 192-234) -/

/-- `label_width = max(200, min(len(request.device_name) * 10, 380))`. -/
def deviceLabelWidth (device_name : String) : Nat :=
  max 200 (min (device_name.length * 10) 380)

/-- `mac_short = request.mac_address.replace(':', '')[-6:].upper()`,
rendered as `f"MAC: ...{mac_short}"`. -/
def macShortText (mac : String) : String :=
  "MAC: ..." ++ ((mac.replace ":" "").takeRight 6).toUpper

/-- The model / rack-unit truncation (lines 227-228): strings longer
than 30 characters become their first 27 characters plus `"..."`. -/
def device_additional_line (s : String) : String :=
  if 30 < s.length then s.take 27 ++ "..." else s

/-- `create_device_label` up to (and including) the MAC line: device
name (bold), `"IP: "` line (normal), `"MAC: ..."` line (small). -/
def deviceAfterMac (S : Service) (M : Measurer)
    (device_name : String) (ip_address mac_address : Option String) :
    LineState :=
  let lw := deviceLabelWidth device_name
  let fonts := get_fonts S
  let st0 : LineState := ⟨imageNew lw S.print_height false, 2, []⟩
  let st1 := drawCenteredLine M lw fonts.bold st0 device_name 2
  let st2 := optLine S M lw fonts.normal 9 1 (fun v => "IP: " ++ v) ip_address st1
  optLine S M lw fonts.small 7 1 macShortText mac_address st2

/-- `create_device_label`: the lines through MAC, then the
model-or-rack-unit line (`additional_info = request.model or
request.rack_unit`), truncated by `device_additional_line`. -/
def create_device_label (S : Service) (M : Measurer)
    (device_name : String) (ip_address mac_address model rack_unit : Option String) :
    Image × List DrawOp :=
  let st := optLine S M (deviceLabelWidth device_name) (get_fonts S).small 6 0
    device_additional_line (pyOrOpt model rack_unit)
    (deviceAfterMac S M device_name ip_address mac_address)
  (st.img, st.ops)

/-! ## Warning labels (`create_warning_label`, lines 236-260) -/

/-- `label_width = max(160, min(len(request.warning_text) * 12, 320))`. -/
def warningLabelWidth (warning_text : String) : Nat :=
  max 160 (min (warning_text.length * 12) 320)

/-- `create_warning_label`: `f"{icon} {text.upper()} {icon}"` in bold
(an explicit `icon=None` appears as the string `"None"`, as Python
f-strings render it), then optional `">>> voltage <<<"`. -/
def create_warning_label (S : Service) (M : Measurer)
    (warning_text : String) (voltage icon : Option String) :
    Image × List DrawOp :=
  let lw := warningLabelWidth warning_text
  let fonts := get_fonts S
  let iconStr := match icon with | some s => s | none => "None"
  let st0 : LineState := ⟨imageNew lw S.print_height false, 4, []⟩
  let st1 := drawCenteredLine M lw fonts.bold st0
    (iconStr ++ " " ++ warning_text.toUpper ++ " " ++ iconStr) 3
  let st2 := optLine S M lw fonts.normal 10 0
    (fun v => ">>> " ++ v ++ " <<<") voltage st1
  (st2.img, st2.ops)

/-! ## Simple text labels (`create_simple_text_label`, lines 262-302) -/

/-- The smallest `s` with `m / 2^s < 2^53` (i.e. `bitlength(m) − 53`
clamped to 0), found by fuelled structural descent so that it reduces
inside the kernel; fuel 1100 covers every value below `2^1153`, far
beyond the overflow threshold of IEEE-754 doubles. -/
def shift53 : Nat → Nat → Nat
  | 0, _ => 0
  | fuel + 1, m => if m < 2 ^ 53 then 0 else shift53 fuel (m / 2) + 1

/-- Round a non-negative integer significand to 53 significant bits,
round-half-to-even: the rounding step of every IEEE-754 double
operation. The scale (binary exponent) is kept by the caller, so this
is exact for the whole normal range of doubles. -/
def rnd53 (m : Nat) : Nat :=
  let s := shift53 1100 m
  if s = 0 then m
  else
    let q := m / 2 ^ s
    let r := m % 2 ^ s
    let half := 2 ^ (s - 1)
    (if half < r ∨ (r = half ∧ q % 2 = 1) then q + 1 else q) * 2 ^ s

/-- `int(len(text) * (font_size * 0.6))` computed with exact IEEE-754
double semantics: the literal `0.6` is the double
`5404319552844595 / 2^53`; each int is converted to a double
(`rnd53`), each product is rounded to 53 significant bits, and the
final truncation of the non-negative result is division by `2^53`.
Exact wherever the Python computation does not overflow to `inf`
(where `int()` would raise instead of returning a width). -/
def pyEstWidthInt (len font_size : Nat) : Nat :=
  rnd53 (rnd53 len * rnd53 (rnd53 font_size * 5404319552844595)) / 2 ^ 53

/-- `label_width = max(180, min(int(len(text) * (font_size * 0.6)) + 40,
400))`, the float product modelled exactly by `pyEstWidthInt`. -/
def textLabelWidth (text : String) (font_size : Nat) : Nat :=
  max 180 (min (pyEstWidthInt text.length font_size + 40) 400)

/-- `new_font_size = max(8, int(request.font_size * (label_width - 20) /
text_width))` (line 286). -/
def shrunkFontSize (font_size label_width text_width : Nat) : Nat :=
  max 8 (font_size * (label_width - 20) / text_width)

/-- The bold truetype font at a requested size, or the default font when
loading fails (the `try/except` at lines 273-276 and 287-290). -/
def textFont (S : Service) (size : Nat) : Font :=
  if S.fontsAvailable then .dejaVuBold size else .defaultFont

/-- `create_simple_text_label`: dynamic width, measure, shrink the font
if the text is wider than `label_width - 20`, re-measure, and draw the
text centred both ways. -/
def create_simple_text_label (S : Service) (M : Measurer)
    (text : String) (font_size : Nat) : Image × List DrawOp :=
  let lw := textLabelWidth text font_size
  let img := imageNew lw S.print_height false
  let f0 := textFont S font_size
  let m0 := M.bbox f0 text
  let fm :=
    if lw - 20 < m0.1 then
      let f1 := textFont S (shrunkFontSize font_size lw m0.1)
      (f1, M.bbox f1 text)
    else (f0, m0)
  let x := centerX lw fm.2.1
  let y := Int.fdiv ((S.print_height : Int) - (fm.2.2 : Int)) 2
  (drawText M img x y text fm.1 true, [⟨x, y, text, fm.1⟩])

/-- `create_batch_text_labels` (lines 304-318): one text label per entry
with the global font size. -/
def create_batch_text_labels (S : Service) (M : Measurer)
    (texts : List String) (font_size : Nat) : List Image :=
  texts.map (fun t => (create_simple_text_label S M t font_size).1)

/-! ## Band composition (`combine_images_to_continuous_band`,
lines 349-384) -/

/-- `max(img.height for img in images)` (as a left fold from 0). -/
def maxHeight (l : List Image) : Nat :=
  l.foldl (fun a i => max a i.height) 0

/-- `sum(img.width for img in images) + (2 * (len(images) - 1))`. -/
def totalWidth (l : List Image) : Nat :=
  (l.map Image.width).sum + 2 * (l.length - 1)

/-- `combined.paste(img, (ox, 0))`: the full rectangle of `img` replaces
the base's pixels at horizontal offset `ox`. -/
def pasteImage (base img : Image) (ox : Nat) : Image :=
  { base with pix := fun x y =>
      if ox ≤ x ∧ x < ox + img.width ∧ y < img.height then img.pix (x - ox) y
      else base.pix x y }

/-- The separator loop (lines 377-379): `putpixel((ox + x, y), 1)` for
`x < 2`, `y < h`. -/
def putSeparator (base : Image) (ox h : Nat) : Image :=
  { base with pix := fun x y =>
      if (x = ox ∨ x = ox + 1) ∧ y < h then true else base.pix x y }

/-- The paste loop of `combine_images_to_continuous_band`: paste each
image at the running offset; after every image but the last, write the
2-pixel separator and advance the offset by 2 more. -/
def combineLoop (maxH : Nat) : List Image → Nat → Image → Image
  | [], _, acc => acc
  | img :: rest, ox, acc =>
    match rest with
    | [] => pasteImage acc img ox
    | _ :: _ =>
      combineLoop maxH rest (ox + img.width + 2)
        (putSeparator (pasteImage acc img ox) (ox + img.width) maxH)

/-- `combine_images_to_continuous_band(images, separator_margin)`:
raises `ValueError("No images to combine")` on an empty list, otherwise
builds a black (0) band of the summed width and pastes the labels with
2-pixel white separators. `separator_margin` is accepted but never read. -/
def combine_images_to_continuous_band (images : List Image)
    (separator_margin : Int) : Except String Image :=
  if images.isEmpty then .error "No images to combine"
  else
    .ok (combineLoop (maxHeight images) images 0
      (imageNew (totalWidth images) (maxHeight images) false))

/-! ## Custom labels (`LabelElement`, `_render_element`,
`create_custom_label`, lines 56-93 and 412-549) -/

/-- The `LabelElement` pydantic model: a string-dispatched element with
one optional field bag shared by all types. -/
structure LabelElement where
  type : String
  x : Int
  y : Int
  id : String
  text : Option String := none
  fontSize : Option Int := none
  fontWeight : Option String := none
  color : Option String := none
  data : Option String := none
  size : Option Int := none
  width : Option Int := none
  height : Option Int := none
  icon : Option String := none
  x2 : Option Int := none
  y2 : Option Int := none
  thickness : Option Int := none
  fillColor : Option String := none
  borderColor : Option String := none
  borderWidth : Option Int := none
  rows : Option Int := none
  cols : Option Int := none
  tableData : Option (List (List String)) := none

/-- `LabelSettings`: canvas width/height/margin with the pydantic
defaults. -/
structure LabelSettings where
  width : Int := 200
  height : Int := 62
  margin : Int := 5

/-- `CustomLabelRequest`. -/
structure CustomLabelRequest where
  elements : List LabelElement
  settings : LabelSettings

/-- A pixel map, the part of an image `ImageDraw` mutates in place. -/
abbrev Pix := Nat → Nat → Bool

/-- The external `ImageDraw` capability: each primitive rewrites the
pixel map or raises. `text` takes an optional font (`draw.text` without
a font uses PIL's default); `rectangle` takes optional fill and outline
values plus a stroke width. -/
structure DrawCap where
  text : Pix → Int → Int → String → Option Font → Bool → Except String Pix
  rectangle : Pix → Int → Int → Int → Int → Option Bool → Option Bool → Nat →
    Except String Pix
  line : Pix → Int → Int → Int → Int → Bool → Nat → Except String Pix
  ellipse : Pix → Int → Int → Int → Int → Bool → Nat → Except String Pix

/-- Python `range(n)` for an int bound (empty when `n ≤ 0`). -/
def pyRange (n : Int) : List Nat := List.range n.toNat

/-- Python `l[:stop]` for an int stop (a negative stop counts from the
end). -/
def pySliceTo {α : Type} (l : List α) (stop : Int) : List α :=
  if 0 ≤ stop then l.take stop.toNat
  else l.take ((l.length : Int) + stop).toNat

/-- `_render_element` (lines 438-549): dispatch on `element.type`,
drawing with `fill=0` on the white (1) custom canvas. Unknown types draw
nothing. -/
def render_element (D : DrawCap) (fa : Bool) (fonts : FontSet)
    (img : Image) (el : LabelElement) : Except String Image :=
  let x := el.x
  let y := el.y
  if el.type = "text" then
    let text := pyOrStr el.text "Text"
    let font_size := pyOrInt el.fontSize 12
    let font_weight := pyOrStr el.fontWeight "normal"
    let font :=
      if fa then
        if font_weight = "bold" then Font.dejaVuBold font_size.toNat
        else Font.dejaVuSans font_size.toNat
      else fonts.normal
    (D.text img.pix x y text (some font) false).map fun p => { img with pix := p }
  else if el.type = "qr" then
    let size := pyOrInt el.size 30
    (D.rectangle img.pix x y (x + size) (y + size) none (some false) 2).bind fun p =>
      let fallback := D.text p (x + 2) (y + Int.fdiv size 2) "QR" none false
      let attempt : Except String Pix :=
        if fa then
          D.text p (x + 2) (y + Int.fdiv size 2 - 4) "QR"
            (some (Font.dejaVuSans (min (Int.fdiv size 4) 8).toNat)) false
        else .error "font unavailable"
      let drawn : Except String Pix :=
        match attempt with
        | .ok p1 => .ok p1
        | .error _ => fallback
      drawn.map fun p2 => { img with pix := p2 }
  else if el.type = "barcode" then
    let w := pyOrInt el.width 80
    let h := pyOrInt el.height 20
    ((pyRange (Int.fdiv w 4)).foldlM (fun (p : Pix) (i : Nat) =>
        if i % 2 = 0 then
          D.rectangle p (x + 4 * (i : Int)) y (x + 4 * (i : Int) + 2) (y + h)
            (some false) none 1
        else .ok p) img.pix).map fun p => { img with pix := p }
  else if el.type = "icon" then
    let icon := pyOrStr el.icon "⭐"
    let size := pyOrInt el.size 16
    let attempt : Except String Pix :=
      if fa then D.text img.pix x y icon (some (Font.dejaVuSans size.toNat)) false
      else .error "font unavailable"
    let drawn : Except String Pix :=
      match attempt with
      | .ok p => .ok p
      | .error _ => D.ellipse img.pix x y (x + size) (y + size) false 2
    drawn.map fun p => { img with pix := p }
  else if el.type = "line" then
    let x2 := pyOrInt el.x2 (x + 50)
    let y2 := pyOrInt el.y2 y
    let thickness := pyOrInt el.thickness 1
    ((pyRange thickness).foldlM (fun (p : Pix) (i : Nat) =>
        D.line p x (y + (i : Int)) x2 (y2 + (i : Int)) false 1) img.pix).map
      fun p => { img with pix := p }
  else if el.type = "rect" then
    let w := pyOrInt el.width 40
    let h := pyOrInt el.height 20
    let border_width := pyOrInt el.borderWidth 1
    let afterFill : Except String Pix :=
      if strTruthy el.fillColor ∧ el.fillColor ≠ some "transparent" then
        D.rectangle img.pix x y (x + w) (y + h) (some false) none 1
      else .ok img.pix
    (afterFill.bind fun p =>
      if 0 < border_width then
        (pyRange border_width).foldlM (fun (p1 : Pix) (i : Nat) =>
          D.rectangle p1 (x + (i : Int)) (y + (i : Int))
            (x + w - (i : Int)) (y + h - (i : Int)) none (some false) 1) p
      else .ok p).map fun p => { img with pix := p }
  else if el.type = "table" then
    let rows := pyOrInt el.rows 2
    let cols := pyOrInt el.cols 2
    ((pyRange (rows + 1)).foldlM (fun (p : Pix) (r : Nat) =>
        D.line p x (y + 15 * (r : Int)) (x + 40 * cols) (y + 15 * (r : Int))
          false 1) img.pix).bind fun p =>
      ((pyRange (cols + 1)).foldlM (fun (p1 : Pix) (c : Nat) =>
          D.line p1 (x + 40 * (c : Int)) y (x + 40 * (c : Int)) (y + 15 * rows)
            false 1) p).bind fun p2 =>
        (match el.tableData with
          | none => (.ok p2 : Except String Pix)
          | some td =>
            let cell_font := if fa then Font.dejaVuSans 8 else fonts.small
            (pySliceTo td rows).enum.foldlM (fun (q : Pix) (rowp : Nat × List String) =>
              (pySliceTo rowp.2 cols).enum.foldlM (fun (q1 : Pix) (cellp : Nat × String) =>
                D.text q1 (x + 40 * (cellp.1 : Int) + 2)
                  (y + 15 * (rowp.1 : Int) + 2) cellp.2 (some cell_font) false)
                q) p2).map fun p3 => { img with pix := p3 }
  else .ok img

/-- `create_custom_label` (lines 412-436): a white (1) canvas of the
requested settings size, each element rendered in list order inside one
`try`, any exception re-raised as
`ValueError(f"Failed to render element: {e}")`. A negative canvas size
makes `Image.new` itself raise, outside that `try`. -/
def create_custom_label (S : Service) (D : DrawCap)
    (req : CustomLabelRequest) : Except String Image :=
  if req.settings.width < 0 ∨ req.settings.height < 0 then
    .error "Width and height must be >= 0"
  else
    let image := imageNew req.settings.width.toNat req.settings.height.toNat true
    let fonts := get_fonts S
    match req.elements.foldlM (fun img el =>
        render_element D S.fontsAvailable fonts img el) image with
    | .ok img => .ok img
    | .error e => .error ("Failed to render element: " ++ e)

/-! ## Print coordination (`print_label_image`, `print_batch_labels`,
`print_batch_text_labels`, lines 320-410 and 658-687) -/

/-- An `HTTPException(status_code, detail)`. -/
structure ApiError where
  status : Nat
  detail : String
deriving DecidableEq, Repr

/-- The `PrintResponse` pydantic model. -/
structure PrintResponse where
  success : Bool
  message : String
  filename : Option String := none
deriving DecidableEq, Repr

/-- External side-effect capabilities for one request: the formatted
`datetime.now().strftime("%m%d_%H%M%S")` timestamp, the outcome of
`image.save`, and the outcome of `printer.print_image`. -/
structure Env where
  timestamp : String
  save_result : Except String Unit
  send_result : Except String Unit

/-- What a print call did: the typed result plus, as observable traces,
the `printer.print_image(image, margin)` dispatches made and the backup
files written. -/
structure PrintOutcome where
  result : Except ApiError PrintResponse
  jobs : List (Image × Nat)
  saves : List (String × Image)

/-- `os.path.basename`: the characters after the last `'/'`. -/
def pyBasename (s : String) : String :=
  ⟨s.data.foldl (fun acc c => if c = '/' then [] else acc ++ [c]) []⟩

/-- Python `str.capitalize()`: first character upper-cased, the rest
lower-cased. -/
def pyCapitalize (s : String) : String :=
  match s.data with
  | [] => ""
  | c :: cs => ⟨Char.toUpper c :: cs.map Char.toLower⟩

/-- `print_label_image` (lines 386-410): require readiness, save the
backup as `/app/labels/tech_{label_type}_{timestamp}.png`, print with
margin 50, and answer with the backup's basename; save/print errors
become a 500 `"Print failed: ..."`. -/
def print_label_image (S : Service) (E : Env) (image : Image)
    (label_type : String) : PrintOutcome :=
  if !S.is_ready then ⟨.error ⟨503, "Printer not ready"⟩, [], []⟩
  else
    let base := "tech_" ++ label_type ++ "_" ++ E.timestamp ++ ".png"
    let filename := "/app/labels/" ++ base
    match E.save_result with
    | .error e => ⟨.error ⟨500, "Print failed: " ++ e⟩, [], []⟩
    | .ok _ =>
      match E.send_result with
      | .error e => ⟨.error ⟨500, "Print failed: " ++ e⟩,
          [(image, 50)], [(filename, image)]⟩
      | .ok _ =>
        ⟨.ok ⟨true, pyCapitalize label_type ++ " label printed successfully",
            some (pyBasename filename)⟩,
          [(image, 50)], [(filename, image)]⟩

/-- `print_batch_labels` (lines 320-347): combine into one band, save
`batch_{label_type}_combined_{timestamp}.png`, print once with margin 0;
any failure becomes a 500 `"Batch printing failed: ..."`. -/
def print_batch_labels (S : Service) (E : Env) (images : List Image)
    (separator_margin : Int) (label_type : String) : PrintOutcome :=
  if !S.is_ready then ⟨.error ⟨503, "Printer not ready"⟩, [], []⟩
  else
    match combine_images_to_continuous_band images separator_margin with
    | .error e => ⟨.error ⟨500, "Batch printing failed: " ++ e⟩, [], []⟩
    | .ok combined =>
      let base := "batch_" ++ label_type ++ "_combined_" ++ E.timestamp ++ ".png"
      let filename := "/app/labels/" ++ base
      match E.save_result with
      | .error e => ⟨.error ⟨500, "Batch printing failed: " ++ e⟩, [], []⟩
      | .ok _ =>
        match E.send_result with
        | .error e => ⟨.error ⟨500, "Batch printing failed: " ++ e⟩,
            [(combined, 0)], [(filename, combined)]⟩
        | .ok _ =>
          ⟨.ok ⟨true, "Continuous batch of " ++ toString images.length ++ " " ++
              label_type ++ " labels printed successfully (saves label tape!)",
              some (pyBasename filename)⟩,
            [(combined, 0)], [(filename, combined)]⟩

/-- The `BatchTextLabelRequest` pydantic model with its defaults.
`print_individually` is declared (default `True`) but never read by any
handler. -/
structure BatchTextLabelRequest where
  texts : List String
  font_size : Nat := 14
  separator_margin : Int := 4
  print_individually : Bool := true

/-- The `POST /print/batch` handler (lines 658-687): reject an empty
text list with a 400 before any label is rendered, otherwise render the
batch and hand it to `print_batch_labels`. -/
def print_batch_text_labels (S : Service) (E : Env) (M : Measurer)
    (req : BatchTextLabelRequest) : PrintOutcome :=
  if req.texts.isEmpty then
    ⟨.error ⟨400, "Mindestens ein Text erforderlich"⟩, [], []⟩
  else
    print_batch_labels S E
      (create_batch_text_labels S M req.texts req.font_size)
      req.separator_margin "batch_text"

/-! ## Dimension-preservation helpers: `draw.text` and the putpixel /
paste operations never change an image's size. -/

@[simp] theorem drawText_width (M : Measurer) (img : Image) (x y : Int)
    (s : String) (f : Font) (fill : Bool) :
    (drawText M img x y s f fill).width = img.width := rfl

@[simp] theorem drawText_height (M : Measurer) (img : Image) (x y : Int)
    (s : String) (f : Font) (fill : Bool) :
    (drawText M img x y s f fill).height = img.height := rfl

@[simp] theorem drawCenteredLine_width (M : Measurer) (lw : Nat) (f : Font)
    (st : LineState) (s : String) (g : Nat) :
    (drawCenteredLine M lw f st s g).img.width = st.img.width := rfl

@[simp] theorem drawCenteredLine_height (M : Measurer) (lw : Nat) (f : Font)
    (st : LineState) (s : String) (g : Nat) :
    (drawCenteredLine M lw f st s g).img.height = st.img.height := rfl

@[simp] theorem optLine_width (S : Service) (M : Measurer) (lw : Nat)
    (f : Font) (mh g : Nat) (tr : String → String) (c : Option String)
    (st : LineState) :
    (optLine S M lw f mh g tr c st).img.width = st.img.width := by
  unfold optLine
  cases c with
  | none => rfl
  | some s =>
    dsimp only
    split
    · rfl
    · split
      · simp
      · rfl

@[simp] theorem optLine_height (S : Service) (M : Measurer) (lw : Nat)
    (f : Font) (mh g : Nat) (tr : String → String) (c : Option String)
    (st : LineState) :
    (optLine S M lw f mh g tr c st).img.height = st.img.height := by
  unfold optLine
  cases c with
  | none => rfl
  | some s =>
    dsimp only
    split
    · rfl
    · split
      · simp
      · rfl

@[simp] theorem cableColorLine_width (S : Service) (M : Measurer) (lw : Nat)
    (f : Font) (st : LineState) (c : Option String) :
    (cableColorLine S M lw f st c).img.width = st.img.width := by
  unfold cableColorLine
  cases c with
  | none => rfl
  | some s =>
    dsimp only
    split
    · rfl
    · split
      · simp
      · rfl

@[simp] theorem cableColorLine_height (S : Service) (M : Measurer) (lw : Nat)
    (f : Font) (st : LineState) (c : Option String) :
    (cableColorLine S M lw f st c).img.height = st.img.height := by
  unfold cableColorLine
  cases c with
  | none => rfl
  | some s =>
    dsimp only
    split
    · rfl
    · split
      · simp
      · rfl

/-- C1: For every cable label request, the raster returned by
`create_cable_label` has height equal to the service's configured
`printHeightPx` and width equal to
`clamp(180, charCount(cable_type) × 12, 350)` — in particular the width
always lies in `[180, 350]`. -/
theorem cable_label_dimensions (S : Service) (M : Measurer)
    (cable_type : String) (voltage destination color_code : Option String) :
    (create_cable_label S M cable_type voltage destination color_code).1.height
        = S.print_height ∧
    (create_cable_label S M cable_type voltage destination color_code).1.width
        = max 180 (min (cable_type.length * 12) 350) ∧
    180 ≤ (create_cable_label S M cable_type voltage destination color_code).1.width ∧
    (create_cable_label S M cable_type voltage destination color_code).1.width ≤ 350 := by
  have hh : (create_cable_label S M cable_type voltage destination color_code).1.height
      = S.print_height := by
    simp [create_cable_label, imageNew]
  have hw : (create_cable_label S M cable_type voltage destination color_code).1.width
      = max 180 (min (cable_type.length * 12) 350) := by
    simp [create_cable_label, imageNew, cableLabelWidth]
  refine ⟨hh, hw, ?_, ?_⟩
  · rw [hw]; exact le_max_left _ _
  · rw [hw]
    exact max_le_iff.mpr ⟨by norm_num, min_le_right _ _⟩

/-! ## Band-compositor lemmas (C2) -/

@[simp] theorem pasteImage_width (base img : Image) (ox : Nat) :
    (pasteImage base img ox).width = base.width := rfl

@[simp] theorem pasteImage_height (base img : Image) (ox : Nat) :
    (pasteImage base img ox).height = base.height := rfl

@[simp] theorem putSeparator_width (base : Image) (ox h : Nat) :
    (putSeparator base ox h).width = base.width := rfl

@[simp] theorem putSeparator_height (base : Image) (ox h : Nat) :
    (putSeparator base ox h).height = base.height := rfl

theorem combineLoop_width (maxH : Nat) :
    ∀ (imgs : List Image) (ox : Nat) (acc : Image),
      (combineLoop maxH imgs ox acc).width = acc.width := by
  intro imgs
  induction imgs with
  | nil => intro ox acc; rfl
  | cons img rest ih =>
    intro ox acc
    cases rest with
    | nil => rfl
    | cons b bs =>
      rw [combineLoop, ih]
      rfl

theorem combineLoop_height (maxH : Nat) :
    ∀ (imgs : List Image) (ox : Nat) (acc : Image),
      (combineLoop maxH imgs ox acc).height = acc.height := by
  intro imgs
  induction imgs with
  | nil => intro ox acc; rfl
  | cons img rest ih =>
    intro ox acc
    cases rest with
    | nil => rfl
    | cons b bs =>
      rw [combineLoop, ih]
      rfl

/-- Columns left of the running offset are never touched again by the
paste loop. -/
theorem combineLoop_pix_left (maxH : Nat) :
    ∀ (imgs : List Image) (ox : Nat) (acc : Image) (x y : Nat), x < ox →
      (combineLoop maxH imgs ox acc).pix x y = acc.pix x y := by
  intro imgs
  induction imgs with
  | nil => intro ox acc x y _; rfl
  | cons img rest ih =>
    intro ox acc x y hx
    cases rest with
    | nil =>
      show (pasteImage acc img ox).pix x y = acc.pix x y
      simp only [pasteImage]
      rw [if_neg]
      intro h
      exact absurd h.1 (Nat.not_le_of_lt hx)
    | cons b bs =>
      rw [combineLoop]
      rw [ih _ _ x y (Nat.lt_of_lt_of_le hx (by omega))]
      show (putSeparator (pasteImage acc img ox) (ox + img.width) maxH).pix x y
          = acc.pix x y
      simp only [putSeparator, pasteImage]
      rw [if_neg, if_neg]
      · intro h
        exact absurd h.1 (Nat.not_le_of_lt hx)
      · intro h
        rcases h.1 with h1 | h1 <;> omega

/-- One pasted label is faithfully present at its offset. -/
def PasteSpec (out img : Image) (ox : Nat) : Prop :=
  ∀ x y, x < img.width → y < img.height → out.pix (ox + x) y = img.pix x y

/-- A full-height 2-pixel strip of value 1 (the opposite polarity of the
labels' 0 background) starts at column `sx`. -/
def SepSpec (out : Image) (maxH sx : Nat) : Prop :=
  ∀ d y, d < 2 → y < maxH → out.pix (sx + d) y = true

/-- The band layout: each raster pasted left-to-right at its running
offset, with a separator strip between consecutive rasters, offsets
advancing by `width + 2`. -/
def BandLayout (out : Image) (maxH : Nat) : List Image → Nat → Prop
  | [], _ => True
  | img :: rest, ox =>
    match rest with
    | [] => PasteSpec out img ox
    | _ :: _ =>
      PasteSpec out img ox ∧ SepSpec out maxH (ox + img.width) ∧
        BandLayout out maxH rest (ox + img.width + 2)

theorem combineLoop_layout (maxH : Nat) :
    ∀ (imgs : List Image) (ox : Nat) (acc : Image),
      BandLayout (combineLoop maxH imgs ox acc) maxH imgs ox := by
  intro imgs
  induction imgs with
  | nil => intro ox acc; trivial
  | cons img rest ih =>
    intro ox acc
    cases rest with
    | nil =>
      show PasteSpec (pasteImage acc img ox) img ox
      intro x y hx hy
      simp only [pasteImage]
      rw [if_pos ⟨Nat.le_add_right _ _, by omega, hy⟩, Nat.add_sub_cancel_left]
    | cons b bs =>
      rw [combineLoop]
      refine ⟨?_, ?_, ih _ _⟩
      · intro x y hx hy
        rw [combineLoop_pix_left maxH _ _ _ _ _ (by omega)]
        show (putSeparator (pasteImage acc img ox) (ox + img.width) maxH).pix
            (ox + x) y = img.pix x y
        simp only [putSeparator, pasteImage]
        rw [if_neg, if_pos ⟨Nat.le_add_right _ _, by omega, hy⟩,
          Nat.add_sub_cancel_left]
        intro h
        rcases h.1 with h1 | h1 <;> omega
      · intro d y hd hy
        rw [combineLoop_pix_left maxH _ _ _ _ _ (by omega)]
        show (putSeparator (pasteImage acc img ox) (ox + img.width) maxH).pix
            (ox + img.width + d) y = true
        simp only [putSeparator]
        rw [if_pos]
        exact ⟨by omega, hy⟩

theorem maxHeight_foldl_init_le (l : List Image) :
    ∀ a : Nat, a ≤ l.foldl (fun a i => max a i.height) a := by
  induction l with
  | nil => intro a; exact Nat.le_refl _
  | cons i t ih =>
    intro a
    exact Nat.le_trans (Nat.le_max_left a i.height) (ih _)

theorem height_le_maxHeight (l : List Image) (i : Image) (h : i ∈ l) :
    i.height ≤ maxHeight l := by
  unfold maxHeight
  generalize (0 : Nat) = a
  induction l generalizing a with
  | nil => cases h
  | cons j t ih =>
    rcases List.mem_cons.mp h with rfl | hm
    · exact Nat.le_trans (Nat.le_max_right a i.height)
        (maxHeight_foldl_init_le t _)
    · exact ih hm _

theorem maxHeight_attained (l : List Image) (hne : l ≠ []) :
    ∃ i ∈ l, maxHeight l = i.height := by
  have key : ∀ (t : List Image) (a : Nat),
      (∃ i ∈ t, t.foldl (fun a i => max a i.height) a = i.height) ∨
        t.foldl (fun a i => max a i.height) a = a := by
    intro t
    induction t with
    | nil => intro a; exact Or.inr rfl
    | cons j u ih =>
      intro a
      rw [List.foldl_cons]
      rcases ih (max a j.height) with ⟨i, hm, he⟩ | he
      · exact Or.inl ⟨i, List.mem_cons_of_mem _ hm, he⟩
      · rcases max_choice a j.height with h | h
        · exact Or.inr (he.trans h)
        · exact Or.inl ⟨j, List.mem_cons_self _ _, he.trans h⟩
  rcases key l 0 with ⟨i, hm, he⟩ | he
  · exact ⟨i, hm, he⟩
  · cases l with
    | nil => exact absurd rfl hne
    | cons j t =>
      refine ⟨j, List.mem_cons_self _ _, Nat.le_antisymm ?_ ?_⟩
      · rw [show maxHeight (j :: t) = 0 from he]
        exact Nat.zero_le _
      · exact height_le_maxHeight _ _ (List.mem_cons_self _ _)

/-- C2: For every non-empty list of rasters (and any separator-margin
argument), `combine_images_to_continuous_band` succeeds with a raster of
width `Σ widths + 2 × (n − 1)` and height the maximum input height;
each input appears pasted left-to-right at its running offset, and
between consecutive inputs lies a full-height 2-pixel strip of value 1
(the opposite polarity of the label images' 0 background). -/
theorem combine_band_spec (imgs : List Image) (sm : Int) (hne : imgs ≠ []) :
    ∃ r, combine_images_to_continuous_band imgs sm = .ok r ∧
      r.width = (imgs.map Image.width).sum + 2 * (imgs.length - 1) ∧
      r.height = maxHeight imgs ∧
      (∀ i ∈ imgs, i.height ≤ r.height) ∧
      (∃ i ∈ imgs, r.height = i.height) ∧
      BandLayout r (maxHeight imgs) imgs 0 := by
  refine ⟨combineLoop (maxHeight imgs) imgs 0
    (imageNew (totalWidth imgs) (maxHeight imgs) false), ?_, ?_, ?_, ?_, ?_, ?_⟩
  · unfold combine_images_to_continuous_band
    rw [if_neg (by simpa using hne)]
  · rw [combineLoop_width]
    rfl
  · rw [combineLoop_height]
    rfl
  · intro i hi
    rw [combineLoop_height]
    exact height_le_maxHeight _ _ hi
  · rcases maxHeight_attained imgs hne with ⟨i, hm, he⟩
    refine ⟨i, hm, ?_⟩
    rw [combineLoop_height]
    exact he
  · exact combineLoop_layout _ _ _ _

/-- C2 witness: the spec evaluated on a concrete two-raster band. -/
theorem combine_band_spec_witness :
    ∃ r, combine_images_to_continuous_band
        [⟨3, 2, fun _ _ => false⟩, ⟨1, 2, fun _ _ => true⟩] 4 = .ok r ∧
      r.width = ([⟨3, 2, fun _ _ => false⟩, (⟨1, 2, fun _ _ => true⟩ : Image)].map
          Image.width).sum + 2 * (2 - 1) ∧
      r.height = maxHeight [⟨3, 2, fun _ _ => false⟩, ⟨1, 2, fun _ _ => true⟩] ∧
      (∀ i ∈ [⟨3, 2, fun _ _ => false⟩, (⟨1, 2, fun _ _ => true⟩ : Image)],
        i.height ≤ r.height) ∧
      (∃ i ∈ [⟨3, 2, fun _ _ => false⟩, (⟨1, 2, fun _ _ => true⟩ : Image)],
        r.height = i.height) ∧
      BandLayout r (maxHeight [⟨3, 2, fun _ _ => false⟩, ⟨1, 2, fun _ _ => true⟩])
        [⟨3, 2, fun _ _ => false⟩, ⟨1, 2, fun _ _ => true⟩] 0 :=
  combine_band_spec [⟨3, 2, fun _ _ => false⟩, ⟨1, 2, fun _ _ => true⟩] 4
    (List.cons_ne_nil _ _)

/-! ## Concrete fixtures used by witnesses and counterexamples -/

/-- A concrete service state: 9 mm tape (print height 50 px), printer
ready, DejaVu fonts available. -/
def sampleService : Service := ⟨50, true, true⟩

/-- A concrete text-measuring capability: every glyph 10 px wide, every
line 12 px tall, an empty coverage mask. -/
def sampleMeasurer : Measurer :=
  ⟨fun _ s => (s.length * 10, 12), fun _ _ _ _ => false⟩

/-! ## C3: auto-shrink of the simple text label -/

/-- C3 (amended): for every Text request whose measured width exceeds
`labelWidth − 20`, the final font size is
`max(8, floor(requestedFontSize × (labelWidth−20) / measuredWidth))`;
it is always ≥ 8, and it is strictly smaller than the requested size
whenever the requested size exceeds 8 (for requested sizes ≤ 8 the
`max` clamp makes the final size 8, which is not smaller). -/
theorem text_label_autoshrink (S : Service) (M : Measurer)
    (text : String) (font_size : Nat)
    (hfa : S.fontsAvailable = true)
    (hshrink : textLabelWidth text font_size - 20 <
      (M.bbox (textFont S font_size) text).1) :
    (create_simple_text_label S M text font_size).2.map DrawOp.font =
      [Font.dejaVuBold (max 8 (font_size * (textLabelWidth text font_size - 20) /
        (M.bbox (textFont S font_size) text).1))] ∧
    8 ≤ max 8 (font_size * (textLabelWidth text font_size - 20) /
        (M.bbox (textFont S font_size) text).1) ∧
    (8 < font_size →
      max 8 (font_size * (textLabelWidth text font_size - 20) /
        (M.bbox (textFont S font_size) text).1) < font_size) := by
  have hshrink1 : textLabelWidth text font_size - 20 <
      (M.bbox (Font.dejaVuBold font_size) text).1 := by
    simpa [textFont, hfa] using hshrink
  refine ⟨?_, le_max_left _ _, ?_⟩
  · simp [create_simple_text_label, hshrink1, textFont, hfa, shrunkFontSize]
  · intro h8
    have htw0 : 0 < (M.bbox (textFont S font_size) text).1 :=
      Nat.lt_of_le_of_lt (Nat.zero_le _) hshrink
    have hq : font_size * (textLabelWidth text font_size - 20) /
        (M.bbox (textFont S font_size) text).1 < font_size := by
      rw [Nat.div_lt_iff_lt_mul htw0]
      rw [Nat.mul_comm font_size (textLabelWidth text font_size - 20)]
      rw [Nat.mul_comm font_size ((M.bbox (textFont S font_size) text).1)]
      exact Nat.mul_lt_mul_of_lt_of_le hshrink (Nat.le_refl font_size) (by omega)
    exact max_lt h8 hq

/-- C3 witness: a 23-character text at requested size 14 shrinks to 12. -/
theorem text_label_autoshrink_witness :
    (create_simple_text_label sampleService sampleMeasurer
        "Serverraum Obergeschoss" 14).2.map DrawOp.font =
      [Font.dejaVuBold (max 8 (14 * (textLabelWidth "Serverraum Obergeschoss" 14 - 20) /
        (sampleMeasurer.bbox (textFont sampleService 14) "Serverraum Obergeschoss").1))] ∧
    8 ≤ max 8 (14 * (textLabelWidth "Serverraum Obergeschoss" 14 - 20) /
        (sampleMeasurer.bbox (textFont sampleService 14) "Serverraum Obergeschoss").1) ∧
    (8 < 14 →
      max 8 (14 * (textLabelWidth "Serverraum Obergeschoss" 14 - 20) /
        (sampleMeasurer.bbox (textFont sampleService 14) "Serverraum Obergeschoss").1) < 14) :=
  text_label_autoshrink sampleService sampleMeasurer "Serverraum Obergeschoss" 14
    (by decide) (by decide)

/-- C3 counterexample: at requested font size 8 with a 40-character
text (measured width 400 > labelWidth − 20 = 212), the shrink branch is
taken yet the final font size is 8, i.e. NOT strictly smaller than the
requested size — refuting the claim's unconditional strict decrease. -/
theorem text_label_autoshrink_counterexample :
    textLabelWidth "0123456789012345678901234567890123456789" 8 - 20 <
      (sampleMeasurer.bbox (textFont sampleService 8)
        "0123456789012345678901234567890123456789").1 ∧
    (create_simple_text_label sampleService sampleMeasurer
        "0123456789012345678901234567890123456789" 8).2.map DrawOp.font =
      [Font.dejaVuBold 8] ∧
    ¬ (8 : Nat) < 8 := by
  refine ⟨by decide, by decide, by decide⟩

/-! ## C5: device model / rack-unit truncation -/

/-- C5: whenever the selected model-or-rackUnit string is non-empty and
its line fits vertically, `create_device_label` renders exactly one
additional centred line whose text is `device_additional_line s`: the
first 27 characters plus `"..."` when `s` has more than 30 characters
(so a 40-character model yields `s.take 27 ++ "..."`), and `s` unchanged
when it has at most 30. -/
theorem device_label_truncation (S : Service) (M : Measurer)
    (device_name : String) (ip_address mac_address model rack_unit : Option String)
    (s : String)
    (hsel : pyOrOpt model rack_unit = some s)
    (hne : s ≠ "")
    (hfit : (deviceAfterMac S M device_name ip_address mac_address).y + 6 <
      S.print_height) :
    (create_device_label S M device_name ip_address mac_address model rack_unit).2 =
      (deviceAfterMac S M device_name ip_address mac_address).ops ++
        [⟨centerX (deviceLabelWidth device_name)
            (M.bbox (get_fonts S).small (device_additional_line s)).1,
          ((deviceAfterMac S M device_name ip_address mac_address).y : Int),
          device_additional_line s, (get_fonts S).small⟩] ∧
    (30 < s.length → device_additional_line s = s.take 27 ++ "...") ∧
    (s.length ≤ 30 → device_additional_line s = s) ∧
    (s.length = 40 → device_additional_line s = s.take 27 ++ "...") := by
  refine ⟨?_, ?_, ?_, ?_⟩
  · simp [create_device_label, optLine, hsel, hne, hfit, drawCenteredLine]
  · intro h
    simp [device_additional_line, h]
  · intro h
    simp [device_additional_line, Nat.not_lt.mpr h]
  · intro h
    simp [device_additional_line, h]

/-- C5 witness: a 40-character model string on a concrete device label
renders as its first 27 characters plus `"..."`. -/
theorem device_label_truncation_witness :
    (create_device_label sampleService sampleMeasurer "SW1" none none
        (some "0123456789012345678901234567890123456789") none).2 =
      (deviceAfterMac sampleService sampleMeasurer "SW1" none none).ops ++
        [⟨centerX (deviceLabelWidth "SW1")
            (sampleMeasurer.bbox (get_fonts sampleService).small
              (device_additional_line "0123456789012345678901234567890123456789")).1,
          ((deviceAfterMac sampleService sampleMeasurer "SW1" none none).y : Int),
          device_additional_line "0123456789012345678901234567890123456789",
          (get_fonts sampleService).small⟩] ∧
    (30 < ("0123456789012345678901234567890123456789" : String).length →
      device_additional_line "0123456789012345678901234567890123456789" =
        ("0123456789012345678901234567890123456789" : String).take 27 ++ "...") ∧
    (("0123456789012345678901234567890123456789" : String).length ≤ 30 →
      device_additional_line "0123456789012345678901234567890123456789" =
        "0123456789012345678901234567890123456789") ∧
    (("0123456789012345678901234567890123456789" : String).length = 40 →
      device_additional_line "0123456789012345678901234567890123456789" =
        ("0123456789012345678901234567890123456789" : String).take 27 ++ "...") :=
  device_label_truncation sampleService sampleMeasurer "SW1" none none
    (some "0123456789012345678901234567890123456789") none
    "0123456789012345678901234567890123456789"
    (by decide) (by decide) (by decide)

/-! ## C4: raster heights -/

/-- A concrete draw capability whose primitives all succeed without
touching the pixel map. -/
def sampleDraw : DrawCap :=
  ⟨fun p _ _ _ _ _ => .ok p, fun p _ _ _ _ _ _ _ => .ok p,
    fun p _ _ _ _ _ _ => .ok p, fun p _ _ _ _ _ _ => .ok p⟩

theorem map_pix_ok {img img2 : Image} (e : Except String Pix)
    (h : (e.map fun p => { img with pix := p }) = .ok img2) :
    img2.height = img.height ∧ img2.width = img.width := by
  cases e with
  | error s => simp [Except.map] at h
  | ok p =>
    simp only [Except.map, Except.ok.injEq] at h
    rw [← h]
    exact ⟨rfl, rfl⟩

theorem bind_map_pix_ok {img img2 : Image} (e : Except String Pix)
    (f : Pix → Except String Pix)
    (h : (e.bind fun p => (f p).map fun q => { img with pix := q }) = .ok img2) :
    img2.height = img.height ∧ img2.width = img.width := by
  cases e with
  | error s => simp [Except.bind] at h
  | ok p =>
    simp only [Except.bind] at h
    exact map_pix_ok (f p) h

theorem bind_bind_map_pix_ok {img img2 : Image} (e : Except String Pix)
    (f g : Pix → Except String Pix)
    (h : (e.bind fun p => (f p).bind fun q => (g q).map fun r =>
      { img with pix := r }) = .ok img2) :
    img2.height = img.height ∧ img2.width = img.width := by
  cases e with
  | error s => simp [Except.bind] at h
  | ok p =>
    simp only [Except.bind] at h
    exact bind_map_pix_ok (f p) g h

/-- `_render_element` only rewrites pixels: any successful render keeps
the canvas dimensions. -/
theorem render_element_dims (D : DrawCap) (fa : Bool) (fonts : FontSet)
    (img : Image) (el : LabelElement) (img2 : Image)
    (h : render_element D fa fonts img el = .ok img2) :
    img2.height = img.height ∧ img2.width = img.width := by
  simp only [render_element] at h
  split_ifs at h
  all_goals
    first
    | exact map_pix_ok _ h
    | exact bind_map_pix_ok _ _ h
    | exact bind_bind_map_pix_ok _ _ _ h
    | (cases h; exact ⟨rfl, rfl⟩)

/-- The element loop of `create_custom_label` keeps the canvas
dimensions. -/
theorem custom_foldl_height (D : DrawCap) (fa : Bool) (fonts : FontSet) :
    ∀ (els : List LabelElement) (img img2 : Image),
      els.foldlM (fun i e => render_element D fa fonts i e) img = .ok img2 →
      img2.height = img.height := by
  intro els
  induction els with
  | nil =>
    intro img img2 h
    cases h
    rfl
  | cons e t ih =>
    intro img img2 h
    rw [List.foldlM_cons] at h
    cases hr : render_element D fa fonts img e with
    | error s =>
      rw [hr] at h
      exact Except.noConfusion h
    | ok i1 =>
      rw [hr] at h
      replace h : t.foldlM (fun i e2 => render_element D fa fonts i e2) i1
          = .ok img2 := h
      rw [ih i1 img2 h]
      exact (render_element_dims D fa fonts img e i1 hr).1

/-- C4 (amended): every raster produced by the cable, device, warning,
text and batch renderers has height equal to the configured
`printHeightPx`; the custom renderer instead produces a raster whose
height is the request's own `settings.height` (claim as stated fails on
custom labels). -/
theorem raster_heights (S : Service) (M : Measurer) (D : DrawCap)
    (ct : String) (cv cd cc : Option String)
    (dn : String) (dip dmac dmodel drack : Option String)
    (wt : String) (wv wi : Option String)
    (tt : String) (tfs : Nat)
    (bts : List String) (bfs : Nat)
    (creq : CustomLabelRequest) (img : Image)
    (hok : create_custom_label S D creq = .ok img) :
    (create_cable_label S M ct cv cd cc).1.height = S.print_height ∧
    (create_device_label S M dn dip dmac dmodel drack).1.height = S.print_height ∧
    (create_warning_label S M wt wv wi).1.height = S.print_height ∧
    (create_simple_text_label S M tt tfs).1.height = S.print_height ∧
    (∀ i ∈ create_batch_text_labels S M bts bfs, i.height = S.print_height) ∧
    img.height = creq.settings.height.toNat := by
  refine ⟨?_, ?_, ?_, ?_, ?_, ?_⟩
  · simp [create_cable_label, imageNew]
  · simp [create_device_label, deviceAfterMac, imageNew]
  · simp [create_warning_label, imageNew]
  · simp [create_simple_text_label, imageNew]
  · intro i hi
    rcases List.mem_map.mp hi with ⟨t, _, rfl⟩
    simp [create_simple_text_label, imageNew]
  · simp only [create_custom_label] at hok
    split at hok
    · cases hok
    · split at hok
      · next i1 heq =>
        cases hok
        rw [custom_foldl_height D S.fontsAvailable (get_fonts S) _ _ _ heq]
        rfl
      · cases hok

/-- C4 witness: the amended statement at concrete inputs (the custom
canvas succeeds with the empty element list). -/
theorem raster_heights_witness :
    (create_cable_label sampleService sampleMeasurer "CAT6" none none none).1.height
        = sampleService.print_height ∧
    (create_device_label sampleService sampleMeasurer "SW1" none none none none).1.height
        = sampleService.print_height ∧
    (create_warning_label sampleService sampleMeasurer "HOT" none (some "⚠")).1.height
        = sampleService.print_height ∧
    (create_simple_text_label sampleService sampleMeasurer "Lab" 14).1.height
        = sampleService.print_height ∧
    (∀ i ∈ create_batch_text_labels sampleService sampleMeasurer ["A"] 14,
      i.height = sampleService.print_height) ∧
    (imageNew 200 62 true).height =
      (⟨[], ⟨200, 62, 5⟩⟩ : CustomLabelRequest).settings.height.toNat :=
  raster_heights sampleService sampleMeasurer sampleDraw "CAT6" none none none
    "SW1" none none none none "HOT" none (some "⚠") "Lab" 14 ["A"] 14
    ⟨[], ⟨200, 62, 5⟩⟩ (imageNew 200 62 true) rfl

/-- C4 counterexample: with the configured print height 50, a custom
label rendered at the default settings succeeds with height 62 ≠ 50 —
refuting "every raster has height `printHeightPx`". -/
theorem raster_heights_counterexample :
    create_custom_label sampleService sampleDraw ⟨[], ⟨200, 62, 5⟩⟩ =
      .ok (imageNew 200 62 true) ∧
    (imageNew 200 62 true).height = 62 ∧
    sampleService.print_height = 50 ∧ (62 : Nat) ≠ 50 :=
  ⟨rfl, rfl, rfl, by decide⟩

/-! ## C6: empty input rejection -/

/-- A concrete environment: fixed timestamp, save and print both
succeed. -/
def sampleEnv : Env := ⟨"1005_120000", .ok (), .ok ()⟩

/-- C6: combining an empty raster list fails with the
`"No images to combine"` `ValueError` (the spec's `EmptyInput`), and a
batch request with zero texts is rejected with a 400 before any label is
rendered — no print job is dispatched and no backup raster is stored. -/
theorem empty_batch_rejected (S : Service) (E : Env) (M : Measurer)
    (req : BatchTextLabelRequest) (sm : Int) (h : req.texts = []) :
    combine_images_to_continuous_band [] sm = .error "No images to combine" ∧
    print_batch_text_labels S E M req =
      ⟨.error ⟨400, "Mindestens ein Text erforderlich"⟩, [], []⟩ := by
  constructor
  · rfl
  · simp [print_batch_text_labels, h]

/-- C6 witness: the rejection evaluated on a concrete empty batch
request. -/
theorem empty_batch_rejected_witness :
    combine_images_to_continuous_band [] 4 = .error "No images to combine" ∧
    print_batch_text_labels sampleService sampleEnv sampleMeasurer
        ⟨[], 14, 4, true⟩ =
      ⟨.error ⟨400, "Mindestens ein Text erforderlich"⟩, [], []⟩ :=
  empty_batch_rejected sampleService sampleEnv sampleMeasurer ⟨[], 14, 4, true⟩ 4 rfl

/-! ## C7: `separator_margin` has no effect -/

/-- C7: for every non-empty raster list and any two values of the
`separator_margin` parameter, `combine_images_to_continuous_band`
produces identical results — the gap is the hardcoded 2 pixels and the
parameter is never read. -/
theorem separator_margin_no_effect (imgs : List Image) (m1 m2 : Int)
    (hne : imgs ≠ []) :
    combine_images_to_continuous_band imgs m1 =
      combine_images_to_continuous_band imgs m2 := rfl

/-- C7 witness: two very different margins on a concrete raster list. -/
theorem separator_margin_no_effect_witness :
    combine_images_to_continuous_band [⟨3, 2, fun _ _ => false⟩] 4 =
      combine_images_to_continuous_band [⟨3, 2, fun _ _ => false⟩] 30 :=
  separator_margin_no_effect [⟨3, 2, fun _ _ => false⟩] 4 30
    (List.cons_ne_nil _ _)

/-! ## C10: `print_individually` has no effect -/

/-- C10: for a non-empty batch, the two values of `print_individually`
produce identical outcomes, and (when the printer is ready and the
backup save succeeds) exactly one print job is dispatched — the single
combined band at margin 0, never one job per label. -/
theorem print_individually_no_effect (S : Service) (E : Env) (M : Measurer)
    (texts : List String) (fs : Nat) (sm : Int) (b1 b2 : Bool)
    (h1 : texts ≠ []) (h2 : S.is_ready = true) (h3 : E.save_result = .ok ()) :
    print_batch_text_labels S E M ⟨texts, fs, sm, b1⟩ =
      print_batch_text_labels S E M ⟨texts, fs, sm, b2⟩ ∧
    ∃ band, combine_images_to_continuous_band
        (create_batch_text_labels S M texts fs) sm = .ok band ∧
      (print_batch_text_labels S E M ⟨texts, fs, sm, b1⟩).jobs = [(band, 0)] := by
  constructor
  · rfl
  · rcases texts with _ | ⟨t, ts⟩
    · exact absurd rfl h1
    have hcomb : combine_images_to_continuous_band
        (create_batch_text_labels S M (t :: ts) fs) sm =
        .ok (combineLoop (maxHeight (create_batch_text_labels S M (t :: ts) fs))
          (create_batch_text_labels S M (t :: ts) fs) 0
          (imageNew (totalWidth (create_batch_text_labels S M (t :: ts) fs))
            (maxHeight (create_batch_text_labels S M (t :: ts) fs)) false)) := by
      unfold combine_images_to_continuous_band
      rw [if_neg]
      simp [create_batch_text_labels]
    refine ⟨_, hcomb, ?_⟩
    simp only [print_batch_text_labels, create_batch_text_labels,
      List.map_cons, List.isEmpty_cons, Bool.false_eq_true, if_false]
    simp only [create_batch_text_labels, List.map_cons] at hcomb
    simp only [print_batch_labels, h2, Bool.not_true, Bool.false_eq_true,
      if_false, hcomb, h3]
    cases E.send_result <;> rfl

/-- C10 witness: a concrete two-label batch printed once with margin 0,
identically for both `print_individually` values. -/
theorem print_individually_no_effect_witness :
    print_batch_text_labels sampleService sampleEnv sampleMeasurer
        ⟨["A", "B"], 14, 4, true⟩ =
      print_batch_text_labels sampleService sampleEnv sampleMeasurer
        ⟨["A", "B"], 14, 4, false⟩ ∧
    ∃ band, combine_images_to_continuous_band
        (create_batch_text_labels sampleService sampleMeasurer ["A", "B"] 14) 4 =
        .ok band ∧
      (print_batch_text_labels sampleService sampleEnv sampleMeasurer
          ⟨["A", "B"], 14, 4, true⟩).jobs = [(band, 0)] :=
  print_individually_no_effect sampleService sampleEnv sampleMeasurer
    ["A", "B"] 14 4 true false (by decide) rfl rfl

/-! ## C9: backup filename of a single-label print -/

theorem foldl_basename_no_slash (l : List Char) (hs : ∀ c ∈ l, c ≠ '/') :
    ∀ acc, l.foldl (fun acc c => if c = '/' then [] else acc ++ [c]) acc
      = acc ++ l := by
  induction l with
  | nil => intro acc; simp
  | cons c t ih =>
    intro acc
    rw [List.foldl_cons, if_neg (hs c (List.mem_cons_self _ _)),
      ih (fun d hd => hs d (List.mem_cons_of_mem _ hd)) (acc ++ [c])]
    simp

theorem pyBasename_labels_dir (b : String) (hs : ∀ c ∈ b.data, c ≠ '/') :
    pyBasename ("/app/labels/" ++ b) = b := by
  unfold pyBasename
  have hdata : ("/app/labels/" ++ b).data = "/app/labels/".data ++ b.data := rfl
  rw [hdata, List.foldl_append]
  have h0 : "/app/labels/".data.foldl
      (fun acc c => if c = '/' then [] else acc ++ [c]) [] = [] := by decide
  rw [h0, foldl_basename_no_slash b.data hs [], List.nil_append]

/-- C9 (amended): a ready printer with successful save and send stores
the backup as `/app/labels/tech_{kind}_{timestamp}.png` (seconds-level
timestamp from `strftime("%m%d_%H%M%S")`) and answers success=true with
the basename `tech_{kind}_{timestamp}.png` — NOT the claim's bare
`{kind}_{timestamp}.png`; a cable request yields
`tech_cable_<timestamp>.png`. -/
theorem print_label_backup_naming (S : Service) (E : Env) (image : Image)
    (label_type : String)
    (hready : S.is_ready = true)
    (hsave : E.save_result = .ok ())
    (hsend : E.send_result = .ok ())
    (hs : ∀ c ∈ ("tech_" ++ label_type ++ "_" ++ E.timestamp ++ ".png").data,
      c ≠ '/') :
    print_label_image S E image label_type =
      ⟨.ok ⟨true, pyCapitalize label_type ++ " label printed successfully",
          some ("tech_" ++ label_type ++ "_" ++ E.timestamp ++ ".png")⟩,
        [(image, 50)],
        [("/app/labels/" ++ ("tech_" ++ label_type ++ "_" ++ E.timestamp ++ ".png"),
          image)]⟩ := by
  simp only [print_label_image, hready, hsave, hsend, Bool.not_true,
    Bool.false_eq_true, if_false]
  rw [pyBasename_labels_dir _ hs]

/-- C9 witness: a concrete cable print with timestamp `1005_120000`
yields the backup basename `tech_cable_1005_120000.png`. -/
theorem print_label_backup_naming_witness :
    print_label_image sampleService sampleEnv (imageNew 10 50 false) "cable" =
      ⟨.ok ⟨true, pyCapitalize "cable" ++ " label printed successfully",
          some ("tech_" ++ "cable" ++ "_" ++ sampleEnv.timestamp ++ ".png")⟩,
        [(imageNew 10 50 false, 50)],
        [("/app/labels/" ++ ("tech_" ++ "cable" ++ "_" ++ sampleEnv.timestamp ++ ".png"),
          imageNew 10 50 false)]⟩ :=
  print_label_backup_naming sampleService sampleEnv (imageNew 10 50 false) "cable"
    rfl rfl rfl (by decide)

/-- C9 counterexample: the returned filename for a cable print carries
the `tech_` prefix, so it is not of the claimed form
`cable_<timestamp>.png`. -/
theorem print_label_backup_naming_counterexample :
    (print_label_image sampleService sampleEnv (imageNew 10 50 false) "cable").result =
      .ok ⟨true, "Cable label printed successfully",
        some "tech_cable_1005_120000.png"⟩ ∧
    ("tech_cable_1005_120000.png" : String) ≠ "cable_1005_120000.png" :=
  ⟨rfl, by decide⟩

/-! ## C8: custom label render failure -/

/-- A concrete draw capability whose `draw.text` raises with message
`"boom"`; all other primitives succeed. -/
def failDraw : DrawCap :=
  ⟨fun _ _ _ _ _ _ => .error "boom", fun p _ _ _ _ _ _ _ => .ok p,
    fun p _ _ _ _ _ _ => .ok p, fun p _ _ _ _ _ _ => .ok p⟩

/-- A concrete text element at the origin with a given identifier. -/
def textElement (i : String) : LabelElement :=
  { type := "text", x := 0, y := 0, id := i }

theorem foldlM_render_append (D : DrawCap) (fa : Bool) (fonts : FontSet)
    (l1 : List LabelElement) (el : LabelElement) (l2 : List LabelElement)
    (img1 : Image) (e : String) :
    ∀ img : Image,
      l1.foldlM (fun i el2 => render_element D fa fonts i el2) img = .ok img1 →
      render_element D fa fonts img1 el = .error e →
      (l1 ++ el :: l2).foldlM (fun i el2 => render_element D fa fonts i el2) img
        = .error e := by
  induction l1 with
  | nil =>
    intro img h1 h2
    rw [List.foldlM_nil] at h1
    replace h1 : Except.ok img = Except.ok img1 := h1
    cases h1
    rw [List.nil_append, List.foldlM_cons, h2]
    rfl
  | cons a t ih =>
    intro img h1 h2
    rw [List.foldlM_cons] at h1
    rw [List.cons_append, List.foldlM_cons]
    cases hr : render_element D fa fonts img a with
    | error s =>
      rw [hr] at h1
      exact Except.noConfusion h1
    | ok i1 =>
      rw [hr] at h1
      replace h1 : t.foldlM (fun i el2 => render_element D fa fonts i el2) i1
          = .ok img1 := h1
      show (t ++ el :: l2).foldlM (fun i el2 => render_element D fa fonts i el2) i1
          = .error e
      exact ih i1 h1 h2

/-- C8 (amended): if rendering any element raises, the whole canvas
render aborts and surfaces the error
`"Failed to render element: {cause}"` — carrying the cause but NOT the
offending element's identifier — and no (partial) canvas raster is
returned. -/
theorem custom_render_abort (S : Service) (D : DrawCap)
    (settings : LabelSettings) (l1 : List LabelElement) (el : LabelElement)
    (l2 : List LabelElement) (img1 : Image) (e : String)
    (hsz : ¬(settings.width < 0 ∨ settings.height < 0))
    (h1 : l1.foldlM (fun i el2 => render_element D S.fontsAvailable (get_fonts S) i el2)
        (imageNew settings.width.toNat settings.height.toNat true) = .ok img1)
    (h2 : render_element D S.fontsAvailable (get_fonts S) img1 el = .error e) :
    create_custom_label S D ⟨l1 ++ el :: l2, settings⟩ =
      .error ("Failed to render element: " ++ e) := by
  simp only [create_custom_label]
  rw [if_neg hsz,
    foldlM_render_append D S.fontsAvailable (get_fonts S) l1 el l2 img1 e _ h1 h2]

/-- C8 witness: one failing text element aborts a concrete canvas render
with the wrapped cause. -/
theorem custom_render_abort_witness :
    create_custom_label sampleService failDraw
        ⟨[] ++ textElement "el1" :: [], ⟨200, 62, 5⟩⟩ =
      .error ("Failed to render element: " ++ "boom") :=
  custom_render_abort sampleService failDraw ⟨200, 62, 5⟩ [] (textElement "el1")
    [] (imageNew 200 62 true) "boom" (by decide) rfl rfl

/-- C8 counterexample: the surfaced error for a failing element is the
same string for two requests that differ only in the element's
identifier, so the error does not carry the offending element's
identifier as claimed. -/
theorem custom_render_abort_counterexample :
    create_custom_label sampleService failDraw
        ⟨[textElement "el1"], ⟨200, 62, 5⟩⟩ =
      .error "Failed to render element: boom" ∧
    create_custom_label sampleService failDraw
        ⟨[textElement "el1"], ⟨200, 62, 5⟩⟩ =
      create_custom_label sampleService failDraw
        ⟨[textElement "el2"], ⟨200, 62, 5⟩⟩ ∧
    (textElement "el1").id ≠ (textElement "el2").id :=
  ⟨rfl, rfl, by decide⟩

end BrotherPT
